import Mathlib

/-!
Shallow embedding of the voice-activity-detection (VAD) core of
`src/api/discord/voiceConnection.ts` (class `VoiceConnectionHandler`).

Embedding conventions:

* A JavaScript `number` holding a decibel level is modelled by `DbLevel α`:
  the IEEE-754 special values `NaN` (produced by `calculateAudioLevel` on an
  empty chunk, via `sqrt(0/0)`) and `-Infinity` (produced on an all-zero
  chunk, via `log10(0)`) are reified as the constructors `nan` and `negInf`;
  finite values are `val x`.  In JavaScript both `NaN > t` and
  `-Infinity > t` are `false` for every finite threshold `t`, which is
  exactly how `dbGtB` treats them.  The carrier `α` of finite values is a
  parameter (`ℤ`, `ℚ` or `ℝ`): the tracker only ever compares levels
  against its two thresholds, so any linearly ordered carrier instantiates
  the same code path structure; `ℝ` is used for the actual dB formula.

* The mutable fields of `VoiceConnectionHandler` become the record
  `HandlerState`.  `NodeJS.Timeout` handles become `Nat` identifiers
  allocated from `nextTimerId`; the ghost field `activeTimers` records the
  identifiers of timers that have been scheduled with `setTimeout` and
  neither cleared with `clearTimeout` nor fired yet (the JS event loop's
  pending-timer queue restricted to this handler).  A timer callback can
  run only while its identifier is still in `activeTimers`.

* `this.emit(event)` only logs in the source; the ghost field `events`
  records the emitted event sequence in order, which is the observable the
  spec talks about.

* Real time is abstracted: the elapsing of the 500 ms `SILENCE_THRESHOLD`
  debounce is represented by an explicit `Act.timerFire` action, which is a
  no-op unless the named timer is still active (a cleared JS timeout never
  runs its callback).
-/

/-- A JavaScript `number` used as a loudness level: `NaN`, `-Infinity`, or a
finite value drawn from the carrier `α`. -/
inductive DbLevel (α : Type) where
  | nan : DbLevel α
  | negInf : DbLevel α
  | val : α → DbLevel α
deriving DecidableEq

/-- The JavaScript comparison `level > t` for a finite threshold `t`:
`NaN > t` and `-Infinity > t` are both `false`; `val x > t` is `t < x`. -/
def dbGtB {α : Type} [LinearOrder α] : DbLevel α → α → Bool
  | DbLevel.nan, _ => false
  | DbLevel.negInf, _ => false
  | DbLevel.val x, t => decide (t < x)

/-- The two events the handler emits (`realSpeechStart` / `realSpeechEnd` in
the source). -/
inductive VadEvent where
  | speechStart : VadEvent
  | speechEnd : VadEvent
deriving DecidableEq

/-- The mutable fields of `VoiceConnectionHandler`, plus the ghost fields
`nextTimerId`, `activeTimers` (pending JS timeouts) and `events` (emitted
event log). -/
structure HandlerState where
  isSpeaking : Bool
  silenceTimer : Option Nat
  consecutiveNoiseFrames : Nat
  nextTimerId : Nat
  activeTimers : List Nat
  events : List VadEvent
  currentConnection : Bool
deriving DecidableEq

/-- Source constant `REQUIRED_NOISE_FRAMES = 3`. -/
def REQUIRED_NOISE_FRAMES : Nat := 3

/-- Source constant `SILENCE_THRESHOLD = 500` (ms); real time is abstracted
by the explicit `Act.timerFire` action. -/
def SILENCE_THRESHOLD : Nat := 500

/-- Source constant `NOISE_THRESHOLD = -50` (dB). -/
def NOISE_THRESHOLD : ℤ := -50

/-- Source constant `SPEECH_THRESHOLD = -35` (dB). -/
def SPEECH_THRESHOLD : ℤ := -35

/-- The state of a freshly constructed `VoiceConnectionHandler` (field
initializers of the class, with an established connection). -/
def initialState : HandlerState :=
  { isSpeaking := false
    silenceTimer := none
    consecutiveNoiseFrames := 0
    nextTimerId := 0
    activeTimers := []
    events := []
    currentConnection := true }

/-- Source `handleSpeechStart`: set `isSpeaking = true` and emit
`realSpeechStart`. -/
def handleSpeechStart (s : HandlerState) : HandlerState :=
  { s with isSpeaking := true, events := s.events ++ [VadEvent.speechStart] }

/-- Source `handleSpeechEnd`: set `isSpeaking = false`, reset
`consecutiveNoiseFrames`, null the timer field, and emit `realSpeechEnd`. -/
def handleSpeechEnd (s : HandlerState) : HandlerState :=
  { s with
    isSpeaking := false
    consecutiveNoiseFrames := 0
    silenceTimer := none
    events := s.events ++ [VadEvent.speechEnd] }

/-- Source lines `if (this.silenceTimer) { clearTimeout(this.silenceTimer);
this.silenceTimer = null; }`: cancelling removes the handle from the
pending-timer queue. -/
def clearSilenceTimer (s : HandlerState) : HandlerState :=
  match s.silenceTimer with
  | some h =>
      { s with activeTimers := s.activeTimers.erase h, silenceTimer := none }
  | none => s

/-- Source line `this.silenceTimer = setTimeout(() => this.handleSpeechEnd(),
this.SILENCE_THRESHOLD)`: allocate a fresh handle and schedule it. -/
def setSilenceTimer (s : HandlerState) : HandlerState :=
  { s with
    silenceTimer := some s.nextTimerId
    activeTimers := s.activeTimers ++ [s.nextTimerId]
    nextTimerId := s.nextTimerId + 1 }

/-- Source `processAudioLevel(audioLevel)`, line for line.  The thresholds
are parameters (`-50` and `-35` in the source); `REQUIRED_NOISE_FRAMES` is
the source constant `3`. -/
def processAudioLevel {α : Type} [LinearOrder α] (noiseT speechT : α)
    (audioLevel : DbLevel α) (s : HandlerState) : HandlerState :=
  if dbGtB audioLevel noiseT then
    let s1 := { s with consecutiveNoiseFrames := s.consecutiveNoiseFrames + 1 }
    if dbGtB audioLevel speechT &&
        decide (REQUIRED_NOISE_FRAMES ≤ s1.consecutiveNoiseFrames) then
      clearSilenceTimer (if s1.isSpeaking then s1 else handleSpeechStart s1)
    else s1
  else
    let s1 := { s with consecutiveNoiseFrames := 0 }
    if s1.isSpeaking && s1.silenceTimer.isNone then setSilenceTimer s1
    else s1

/-- Source `isCurrentlySpeaking()`. -/
def isCurrentlySpeaking (s : HandlerState) : Bool :=
  s.isSpeaking

/-- The actions that can reach the handler's state: a PCM frame (already
measured to a dB level), the firing of a scheduled timeout, `disconnect()`
(which calls `connection.destroy()` and nulls `currentConnection`), and the
`audioStream.on('end')` callback (which only logs). -/
inductive Act (α : Type) where
  | frame : DbLevel α → Act α
  | timerFire : Nat → Act α
  | disconnect : Act α
  | streamEnd : Act α

/-- One step of the handler.  `timerFire id` models the JS event loop
running the timeout callback `() => this.handleSpeechEnd()`: it runs only if
the timeout `id` is still scheduled (a cleared timeout never fires), and the
firing removes it from the pending queue. -/
def step {α : Type} [LinearOrder α] (noiseT speechT : α)
    (s : HandlerState) : Act α → HandlerState
  | Act.frame lvl => processAudioLevel noiseT speechT lvl s
  | Act.timerFire id =>
      if id ∈ s.activeTimers then
        handleSpeechEnd { s with activeTimers := s.activeTimers.erase id }
      else s
  | Act.disconnect => { s with currentConnection := false }
  | Act.streamEnd => s

/-- Run a sequence of actions from a state. -/
def run {α : Type} [LinearOrder α] (noiseT speechT : α)
    (acts : List (Act α)) (s : HandlerState) : HandlerState :=
  acts.foldl (step noiseT speechT) s

/-- Frames as delivered by the per-user audio streams: each carries the
`userId` of the subscribed source.  In the source every stream's `data`
callback invokes the same `this.calculateAudioLevel` / `this.processAudioLevel`
on the shared handler instance, so the user id is not consulted. -/
def runTagged {α : Type} [LinearOrder α] (noiseT speechT : α)
    (frames : List (Nat × DbLevel α)) (s : HandlerState) : HandlerState :=
  frames.foldl (fun s p => processAudioLevel noiseT speechT p.2 s) s

/-- Source `calculateAudioLevel`, sum-of-squares part:
`for (let i = 0; i < samples.length; i++) sum += samples[i] * samples[i]`. -/
def sumSquares (chunk : List ℤ) : ℤ :=
  (chunk.map (fun s => s * s)).sum

/-- Sum of absolute sample values (used to state the spec's
"average absolute sample magnitude"). -/
def sumAbs (chunk : List ℤ) : ℤ :=
  (chunk.map (fun s => |s|)).sum

/-- Mean square of a frame, `sum / samples.length` (as an exact rational). -/
def meanSquare (chunk : List ℤ) : ℚ :=
  (sumSquares chunk : ℚ) / (chunk.length : ℚ)

/-- Average absolute sample magnitude of a frame. -/
def avgAbs (chunk : List ℤ) : ℚ :=
  (sumAbs chunk : ℚ) / (chunk.length : ℚ)

/-- Source `calculateAudioLevel(chunk)`:
`rms = sqrt(sum / samples.length); return 20 * log10(rms / 32768)`.
The two branches reify the IEEE-754 float semantics of the same formula:
an empty chunk gives `sqrt(0/0) = NaN` and `log10(NaN) = NaN`; an all-zero
chunk gives `rms = 0` and `20 * log10(0) = -Infinity`; otherwise the value
is finite and equals the real-number formula. -/
noncomputable def calculateAudioLevel (chunk : List ℤ) : DbLevel ℝ :=
  if chunk.length = 0 then DbLevel.nan
  else if sumSquares chunk = 0 then DbLevel.negInf
  else
    DbLevel.val (20 * Real.logb 10
      (Real.sqrt ((sumSquares chunk : ℝ) / (chunk.length : ℝ)) / 32768))

/-- Order on measured levels: `-Infinity` is below every finite value, and
finite values compare as reals.  `NaN` is not below or above anything (it
only arises for empty frames, which the order-related claims exclude). -/
def dbLe : DbLevel ℝ → DbLevel ℝ → Prop
  | DbLevel.negInf, DbLevel.negInf => True
  | DbLevel.negInf, DbLevel.val _ => True
  | DbLevel.val x, DbLevel.val y => x ≤ y
  | _, _ => False

/-- Source `handleAudioStream`'s `data` callback: measure the chunk and feed
the level to `processAudioLevel`, with the source's threshold constants. -/
noncomputable def handleAudioData (chunk : List ℤ) (s : HandlerState) :
    HandlerState :=
  processAudioLevel ((NOISE_THRESHOLD : ℝ)) ((SPEECH_THRESHOLD : ℝ))
    (calculateAudioLevel chunk) s

/-- One step of the alternation automaton: in state `false` (idle) only
`speechStart` is legal, in state `true` (speaking) only `speechEnd`. -/
def altStep : Bool → VadEvent → Option Bool
  | false, VadEvent.speechStart => some true
  | true, VadEvent.speechEnd => some false
  | _, _ => none

/-- Run the alternation automaton over an event list.  `altExpect false evs
= some b` says: `evs` strictly alternates `speechStart`/`speechEnd` starting
with `speechStart` (so it never contains two consecutive events of the same
type and never a `speechEnd` without a preceding unmatched `speechStart`),
and `b` tells whether the last event was an unmatched `speechStart`. -/
def altExpect : Bool → List VadEvent → Option Bool
  | b, [] => some b
  | b, e :: r =>
      match altStep b e with
      | some c => altExpect c r
      | none => none

theorem altExpect_append_one (l : List VadEvent) :
    ∀ (b : Bool) (e : VadEvent),
      altExpect b (l ++ [e]) = (altExpect b l).bind (fun c => altStep c e) := by
  induction l with
  | nil =>
      intro b e
      simp only [List.nil_append, altExpect, Option.bind]
      cases altStep b e <;> rfl
  | cons x r ih =>
      intro b e
      simp only [List.cons_append, altExpect]
      cases altStep b x <;> simp [ih]

/-- The timer bookkeeping invariant: the pending-timer queue holds exactly
the handle stored in `silenceTimer` (so never more than one scheduled
timeout), and stored handles are below the allocation counter. -/
def TimerOK (s : HandlerState) : Prop :=
  match s.silenceTimer with
  | none => s.activeTimers = []
  | some h => s.activeTimers = [h] ∧ h < s.nextTimerId

/-- The inductive invariant of the handler: the event log alternates and its
parity matches `isSpeaking`; timer bookkeeping is consistent; and a timer is
pending only while speaking. -/
def HandlerInv (s : HandlerState) : Prop :=
  altExpect false s.events = some s.isSpeaking ∧ TimerOK s ∧
    (s.silenceTimer = none ∨ s.isSpeaking = true)

theorem inv_initialState : HandlerInv initialState :=
  ⟨rfl, rfl, Or.inl rfl⟩

theorem processAudioLevel_hit {α : Type} [LinearOrder α] (noiseT speechT : α)
    (lvl : DbLevel α) (s : HandlerState)
    (h1 : dbGtB lvl noiseT = true) (h2 : dbGtB lvl speechT = true)
    (h3 : REQUIRED_NOISE_FRAMES ≤ s.consecutiveNoiseFrames + 1) :
    processAudioLevel noiseT speechT lvl s =
      clearSilenceTimer
        (if s.isSpeaking then
          { s with consecutiveNoiseFrames := s.consecutiveNoiseFrames + 1 }
         else handleSpeechStart
          { s with consecutiveNoiseFrames := s.consecutiveNoiseFrames + 1 }) := by
  simp [processAudioLevel, h1, h2, h3]

theorem processAudioLevel_miss {α : Type} [LinearOrder α] (noiseT speechT : α)
    (lvl : DbLevel α) (s : HandlerState)
    (h1 : dbGtB lvl noiseT = true)
    (h2 : ¬(dbGtB lvl speechT = true ∧
        REQUIRED_NOISE_FRAMES ≤ s.consecutiveNoiseFrames + 1)) :
    processAudioLevel noiseT speechT lvl s =
      { s with consecutiveNoiseFrames := s.consecutiveNoiseFrames + 1 } := by
  by_cases hs : dbGtB lvl speechT = true
  · have hn : ¬ REQUIRED_NOISE_FRAMES ≤ s.consecutiveNoiseFrames + 1 :=
      fun hc => h2 ⟨hs, hc⟩
    simp [processAudioLevel, h1, hs, hn]
  · simp [processAudioLevel, h1, hs]

theorem processAudioLevel_silent {α : Type} [LinearOrder α] (noiseT speechT : α)
    (lvl : DbLevel α) (s : HandlerState)
    (h1 : dbGtB lvl noiseT = false) :
    processAudioLevel noiseT speechT lvl s =
      if s.isSpeaking && s.silenceTimer.isNone then
        setSilenceTimer { s with consecutiveNoiseFrames := 0 }
      else { s with consecutiveNoiseFrames := 0 } := by
  simp [processAudioLevel, h1]

theorem inv_step {α : Type} [LinearOrder α] (noiseT speechT : α)
    (s : HandlerState) (a : Act α) (hI : HandlerInv s) :
    HandlerInv (step noiseT speechT s a) := by
  obtain ⟨hAlt, hT, hD⟩ := hI
  cases a with
  | disconnect => exact ⟨hAlt, hT, hD⟩
  | streamEnd => exact ⟨hAlt, hT, hD⟩
  | timerFire id =>
      show HandlerInv
        (if id ∈ s.activeTimers then
          handleSpeechEnd { s with activeTimers := s.activeTimers.erase id }
         else s)
      by_cases hm : id ∈ s.activeTimers
      · rw [if_pos hm]
        cases hst : s.silenceTimer with
        | none =>
            exfalso
            have hac : s.activeTimers = [] := by
              simpa [TimerOK, hst] using hT
            rw [hac] at hm
            simp at hm
        | some h =>
            have hT' : s.activeTimers = [h] ∧ h < s.nextTimerId := by
              simpa [TimerOK, hst] using hT
            have hsp : s.isSpeaking = true := by
              rcases hD with h0 | h0
              · rw [hst] at h0; cases h0
              · exact h0
            have hid : id = h := by
              rw [hT'.1] at hm; simpa using hm
            refine ⟨?_, ?_, Or.inl rfl⟩
            · show altExpect false (s.events ++ [VadEvent.speechEnd]) = some false
              rw [altExpect_append_one, hAlt, hsp]
              rfl
            · show TimerOK (handleSpeechEnd
                { s with activeTimers := s.activeTimers.erase id })
              simp [TimerOK, handleSpeechEnd, hT'.1, hid]
      · rw [if_neg hm]
        exact ⟨hAlt, hT, hD⟩
  | frame lvl =>
      show HandlerInv (processAudioLevel noiseT speechT lvl s)
      by_cases h1 : dbGtB lvl noiseT = true
      · by_cases h2 : dbGtB lvl speechT = true ∧
            REQUIRED_NOISE_FRAMES ≤ s.consecutiveNoiseFrames + 1
        · rw [processAudioLevel_hit noiseT speechT lvl s h1 h2.1 h2.2]
          by_cases hsp : s.isSpeaking = true
          · rw [if_pos hsp]
            cases hst : s.silenceTimer with
            | none =>
                have hac : s.activeTimers = [] := by
                  simpa [TimerOK, hst] using hT
                simp only [clearSilenceTimer, hst]
                exact ⟨hAlt, by simp [TimerOK, hst, hac], Or.inl rfl⟩
            | some h =>
                have hT' : s.activeTimers = [h] ∧ h < s.nextTimerId := by
                  simpa [TimerOK, hst] using hT
                simp only [clearSilenceTimer, hst]
                refine ⟨hAlt, ?_, Or.inl rfl⟩
                simp [TimerOK, hT'.1]
          · rw [if_neg hsp]
            have hsf : s.isSpeaking = false := by
              cases hb : s.isSpeaking
              · rfl
              · exact absurd hb hsp
            have hst : s.silenceTimer = none := by
              rcases hD with h0 | h0
              · exact h0
              · exact absurd h0 hsp
            have hac : s.activeTimers = [] := by
              simpa [TimerOK, hst] using hT
            simp only [clearSilenceTimer, handleSpeechStart, hst]
            refine ⟨?_, ?_, Or.inr rfl⟩
            · show altExpect false (s.events ++ [VadEvent.speechStart]) = some true
              rw [altExpect_append_one, hAlt, hsf]
              rfl
            · simp [TimerOK, hst, hac]
        · rw [processAudioLevel_miss noiseT speechT lvl s h1 h2]
          exact ⟨hAlt, hT, hD⟩
      · have h1f : dbGtB lvl noiseT = false := by
          cases hb : dbGtB lvl noiseT
          · rfl
          · exact absurd hb h1
        rw [processAudioLevel_silent noiseT speechT lvl s h1f]
        by_cases hc : (s.isSpeaking && s.silenceTimer.isNone) = true
        · rw [if_pos hc]
          have hsp : s.isSpeaking = true := (Bool.and_eq_true _ _ |>.mp hc).1
          have hstn : s.silenceTimer = none := by
            have := (Bool.and_eq_true _ _ |>.mp hc).2
            cases hb : s.silenceTimer
            · rfl
            · rw [hb] at this; simp at this
          have hac : s.activeTimers = [] := by
            simpa [TimerOK, hstn] using hT
          refine ⟨hAlt, ?_, Or.inr hsp⟩
          simp [TimerOK, setSilenceTimer, hac]
        · rw [if_neg hc]
          exact ⟨hAlt, hT, hD⟩

theorem inv_run {α : Type} [LinearOrder α] (noiseT speechT : α)
    (acts : List (Act α)) :
    ∀ s : HandlerState, HandlerInv s → HandlerInv (run noiseT speechT acts s) := by
  induction acts with
  | nil => intro s h; exact h
  | cons a r ih =>
      intro s h
      exact ih (step noiseT speechT s a) (inv_step noiseT speechT s a h)

/-- C1 (counterexample).  The claim asserts per-source isolation: with
source `A = 0` fed loud frames and source `B = 1` fed nothing, `B` stays
Idle and the speaking query reports `B`'s own state unaffected by `A`.  In
the code all subscribed streams feed one shared state on the handler, and
`isCurrentlySpeaking()` takes no source argument: after three loud frames
attributed to `A` only, the query answers `true`, while restricting the
delivered frames to those of `B` (none) answers `false` — the observation
for `B` does depend on `A`'s frames, refuting the claim at this input. -/
theorem sharedState_cex :
    isCurrentlySpeaking (runTagged NOISE_THRESHOLD SPEECH_THRESHOLD
      [((0 : Nat), DbLevel.val ((-30) : ℤ)), (0, DbLevel.val (-30)),
        (0, DbLevel.val (-30))] initialState) = true ∧
    List.filter (fun p => p.1 == 1)
      [((0 : Nat), DbLevel.val ((-30) : ℤ)), (0, DbLevel.val (-30)),
        (0, DbLevel.val (-30))] = [] ∧
    isCurrentlySpeaking (runTagged NOISE_THRESHOLD SPEECH_THRESHOLD
      (List.filter (fun p => p.1 == 1)
        [((0 : Nat), DbLevel.val ((-30) : ℤ)), (0, DbLevel.val (-30)),
          (0, DbLevel.val (-30))]) initialState) = false := by
  decide

/-- C1 (amended).  What the code guarantees instead: the handler's state and
emitted events depend only on the merged sequence of frame levels delivered
to it — the source tag of a frame is ignored entirely, so all sources of one
connection share one tracker state, while distinct handler instances
(separate `run`s) are trivially independent. -/
theorem runTagged_ignores_source {α : Type} [LinearOrder α]
    (noiseT speechT : α) (frames : List (Nat × DbLevel α)) (s : HandlerState) :
    runTagged noiseT speechT frames s
      = run noiseT speechT (frames.map (fun p => Act.frame p.2)) s := by
  induction frames generalizing s with
  | nil => rfl
  | cons p r ih => exact ih (processAudioLevel noiseT speechT p.2 s)

/-- C2 (counterexample).  Three loud frames make the handler speak, a silent
frame schedules the debounce timer (handle 0), then `disconnect()` tears the
connection down; the claim says the pending timer is cancelled and no
further event is ever emitted.  In the code `disconnect()` only destroys the
connection object: the timer stays pending and, once the 500 ms delay
elapses, fires and emits `speechEnd` after teardown. -/
theorem teardown_cex :
    (run NOISE_THRESHOLD SPEECH_THRESHOLD
      [Act.frame (DbLevel.val (-30)), Act.frame (DbLevel.val (-30)),
        Act.frame (DbLevel.val (-30)), Act.frame (DbLevel.val (-60)),
        Act.disconnect] initialState).silenceTimer = some 0 ∧
    (run NOISE_THRESHOLD SPEECH_THRESHOLD
      [Act.frame (DbLevel.val (-30)), Act.frame (DbLevel.val (-30)),
        Act.frame (DbLevel.val (-30)), Act.frame (DbLevel.val (-60)),
        Act.disconnect] initialState).events = [VadEvent.speechStart] ∧
    (run NOISE_THRESHOLD SPEECH_THRESHOLD
      [Act.frame (DbLevel.val (-30)), Act.frame (DbLevel.val (-30)),
        Act.frame (DbLevel.val (-30)), Act.frame (DbLevel.val (-60)),
        Act.disconnect, Act.timerFire 0] initialState).events
      = [VadEvent.speechStart, VadEvent.speechEnd] := by
  decide

/-- C2 (amended).  Teardown does not cancel a pending silence timer:
`disconnect()` changes only `currentConnection`, the stream-end handler only
logs, and a timer that was pending at teardown still fires after the
debounce delay and emits `speechEnd`. -/
theorem teardown_leaves_timer {α : Type} [LinearOrder α] (noiseT speechT : α)
    (s : HandlerState) (h : Nat)
    (ht : s.silenceTimer = some h) (ha : s.activeTimers = [h]) :
    (step noiseT speechT s Act.disconnect).silenceTimer = some h ∧
    step noiseT speechT s Act.streamEnd = s ∧
    (run noiseT speechT [Act.disconnect, Act.timerFire h] s).events
      = s.events ++ [VadEvent.speechEnd] := by
  refine ⟨ht, rfl, ?_⟩
  show (step noiseT speechT (step noiseT speechT s Act.disconnect)
    (Act.timerFire h)).events = s.events ++ [VadEvent.speechEnd]
  simp [step, ha, handleSpeechEnd]

/-- C2 (witness for the amended theorem), at a concrete speaking state with
timer handle 0 pending. -/
theorem teardown_leaves_timer_witness :
    (step (NOISE_THRESHOLD) (SPEECH_THRESHOLD)
      { isSpeaking := true, silenceTimer := some 0, consecutiveNoiseFrames := 0,
        nextTimerId := 1, activeTimers := [0], events := [VadEvent.speechStart],
        currentConnection := true } Act.disconnect).silenceTimer = some 0 ∧
    step (NOISE_THRESHOLD) (SPEECH_THRESHOLD)
      { isSpeaking := true, silenceTimer := some 0, consecutiveNoiseFrames := 0,
        nextTimerId := 1, activeTimers := [0], events := [VadEvent.speechStart],
        currentConnection := true } Act.streamEnd
      = { isSpeaking := true, silenceTimer := some 0, consecutiveNoiseFrames := 0,
          nextTimerId := 1, activeTimers := [0], events := [VadEvent.speechStart],
          currentConnection := true } ∧
    (run (NOISE_THRESHOLD) (SPEECH_THRESHOLD)
      [Act.disconnect, Act.timerFire 0]
      { isSpeaking := true, silenceTimer := some 0, consecutiveNoiseFrames := 0,
        nextTimerId := 1, activeTimers := [0], events := [VadEvent.speechStart],
        currentConnection := true }).events
      = [VadEvent.speechStart] ++ [VadEvent.speechEnd] :=
  teardown_leaves_timer NOISE_THRESHOLD SPEECH_THRESHOLD
    { isSpeaking := true, silenceTimer := some 0, consecutiveNoiseFrames := 0,
      nextTimerId := 1, activeTimers := [0], events := [VadEvent.speechStart],
      currentConnection := true } 0 rfl rfl

/-- C3 (counterexample).  A zero-length frame measures to `NaN` (not to a
reported error), and feeding it through the stream `data` path to a tracker
that is speaking with `consecutiveNoiseFrames = 3` and no pending timer
(reachable by three −30 dB frames) resets the counter to 0 and starts a
silence countdown — the malformed frame is treated as silence, not as
"no update", refuting the claim. -/
theorem malformedFrame_cex :
    calculateAudioLevel [] = DbLevel.nan ∧
    handleAudioData []
      { isSpeaking := true, silenceTimer := none, consecutiveNoiseFrames := 3,
        nextTimerId := 0, activeTimers := [], events := [VadEvent.speechStart],
        currentConnection := true }
      = { isSpeaking := true, silenceTimer := some 0, consecutiveNoiseFrames := 0,
          nextTimerId := 1, activeTimers := [0], events := [VadEvent.speechStart],
          currentConnection := true } :=
  ⟨rfl, rfl⟩

/-- C3 (amended).  A frame whose measurement fails (a `NaN` level) is
processed exactly like a silent frame — both comparisons against the
thresholds are `false` — so it resets `consecutiveNoiseFrames` to 0 and, if
the tracker is speaking with no pending timer, starts a silence countdown;
no error is reported to the caller and no event is emitted at that step. -/
theorem nanFrame_is_silence {α : Type} [LinearOrder α] (noiseT speechT : α)
    (s : HandlerState) :
    processAudioLevel noiseT speechT DbLevel.nan s
      = processAudioLevel noiseT speechT DbLevel.negInf s ∧
    (processAudioLevel noiseT speechT DbLevel.nan s).consecutiveNoiseFrames = 0 ∧
    (processAudioLevel noiseT speechT DbLevel.nan s).isSpeaking = s.isSpeaking ∧
    (processAudioLevel noiseT speechT DbLevel.nan s).events = s.events := by
  refine ⟨rfl, ?_, ?_, ?_⟩ <;>
    · rw [processAudioLevel_silent noiseT speechT DbLevel.nan s rfl]
      split <;> rfl

/-- C4 (counterexample).  For a zero-length frame the claim requires
`measure` to fail with an `InvalidFrame` error and in particular to produce
no `NaN`.  The code has no error path: `sqrt(0/0)` makes the returned level
exactly `NaN`, which is then silently passed on to the tracker. -/
theorem measureEmpty_cex : calculateAudioLevel [] = DbLevel.nan :=
  rfl

/-- C4 (amended).  A zero-length frame (and only a zero-length frame) makes
`measure` return the non-numeric `NaN` value: it never yields a finite dB
number for `N = 0` and raises no domain error, but no `InvalidFrame` error
is reported either. -/
theorem measureNan_iff_empty (chunk : List ℤ) :
    calculateAudioLevel chunk = DbLevel.nan ↔ chunk.length = 0 := by
  unfold calculateAudioLevel
  by_cases h : chunk.length = 0
  · simp [h]
  · by_cases h2 : sumSquares chunk = 0
    · simp [h, h2]
    · simp [h, h2]

/-- C5 (counterexample).  After speech is confirmed (three −30 dB frames)
and a silent frame schedules the debounce timer (handle 0), a −40 dB frame
exceeds the noise threshold (−50) before the timer fires.  The claim says
that frame cancels the pending timer and no `speechEnd` is ever emitted for
the dip; in the code the timer is cancelled only under the speech-threshold
condition, so it stays pending (`some 0`) and its firing emits
`speechEnd`. -/
theorem aboveNoiseCancel_cex :
    (run NOISE_THRESHOLD SPEECH_THRESHOLD
      [Act.frame (DbLevel.val (-30)), Act.frame (DbLevel.val (-30)),
        Act.frame (DbLevel.val (-30)), Act.frame (DbLevel.val (-60)),
        Act.frame (DbLevel.val (-40))] initialState).silenceTimer = some 0 ∧
    (run NOISE_THRESHOLD SPEECH_THRESHOLD
      [Act.frame (DbLevel.val (-30)), Act.frame (DbLevel.val (-30)),
        Act.frame (DbLevel.val (-30)), Act.frame (DbLevel.val (-60)),
        Act.frame (DbLevel.val (-40)), Act.timerFire 0] initialState).events
      = [VadEvent.speechStart, VadEvent.speechEnd] := by
  decide

/-- C5 (amended).  A pending silence timer is cancelled by a frame only when
the frame's level also exceeds the speech threshold and the incremented
consecutive-noise counter reaches `REQUIRED_NOISE_FRAMES`; such a frame
cancels the countdown, emits nothing, and the cancelled timer can never fire
afterwards (so no `speechEnd` results from that dip). -/
theorem speechFrame_cancels_timer {α : Type} [LinearOrder α]
    (noiseT speechT : α) (lvl : DbLevel α) (s : HandlerState) (h : Nat)
    (hn : dbGtB lvl noiseT = true) (hs : dbGtB lvl speechT = true)
    (hsp : s.isSpeaking = true) (ht : s.silenceTimer = some h)
    (ha : s.activeTimers = [h])
    (hc : REQUIRED_NOISE_FRAMES ≤ s.consecutiveNoiseFrames + 1) :
    (processAudioLevel noiseT speechT lvl s).silenceTimer = none ∧
    (processAudioLevel noiseT speechT lvl s).activeTimers = [] ∧
    (processAudioLevel noiseT speechT lvl s).events = s.events ∧
    step noiseT speechT (processAudioLevel noiseT speechT lvl s)
      (Act.timerFire h) = processAudioLevel noiseT speechT lvl s := by
  rw [processAudioLevel_hit noiseT speechT lvl s hn hs hc, if_pos hsp]
  refine ⟨?_, ?_, ?_, ?_⟩ <;> simp [clearSilenceTimer, step, ht, ha]

/-- C5 (witness for the amended theorem): a −30 dB frame arriving while
speaking with timer 0 pending and two noise frames already counted. -/
theorem speechFrame_cancels_timer_witness :
    dbGtB (DbLevel.val ((-30) : ℤ)) NOISE_THRESHOLD = true ∧
    dbGtB (DbLevel.val ((-30) : ℤ)) SPEECH_THRESHOLD = true ∧
    REQUIRED_NOISE_FRAMES ≤ 2 + 1 ∧
    (processAudioLevel NOISE_THRESHOLD SPEECH_THRESHOLD
        (DbLevel.val ((-30) : ℤ))
        { isSpeaking := true, silenceTimer := some 0,
          consecutiveNoiseFrames := 2, nextTimerId := 1, activeTimers := [0],
          events := [VadEvent.speechStart],
          currentConnection := true }).silenceTimer = none ∧
    (processAudioLevel NOISE_THRESHOLD SPEECH_THRESHOLD
        (DbLevel.val ((-30) : ℤ))
        { isSpeaking := true, silenceTimer := some 0,
          consecutiveNoiseFrames := 2, nextTimerId := 1, activeTimers := [0],
          events := [VadEvent.speechStart],
          currentConnection := true }).activeTimers = [] :=
  ⟨by decide, by decide, by decide,
    (speechFrame_cancels_timer NOISE_THRESHOLD SPEECH_THRESHOLD
      (DbLevel.val ((-30) : ℤ))
      { isSpeaking := true, silenceTimer := some 0, consecutiveNoiseFrames := 2,
        nextTimerId := 1, activeTimers := [0], events := [VadEvent.speechStart],
        currentConnection := true } 0 (by decide) (by decide) rfl rfl rfl
      (by decide)).1,
    (speechFrame_cancels_timer NOISE_THRESHOLD SPEECH_THRESHOLD
      (DbLevel.val ((-30) : ℤ))
      { isSpeaking := true, silenceTimer := some 0, consecutiveNoiseFrames := 2,
        nextTimerId := 1, activeTimers := [0], events := [VadEvent.speechStart],
        currentConnection := true } 0 (by decide) (by decide) rfl rfl rfl
      (by decide)).2.1⟩

/-- C6 (counterexample).  Two frames above the noise floor but below the
speech floor (−40 dB) followed by one frame above the speech floor (−30 dB):
the claim says no `speechStart` is emitted.  In the code the counter counts
noise-floor crossings, so it reaches 3 on the loud frame, which is above the
speech threshold — `speechStart` is emitted. -/
theorem hysteresisVector_cex :
    (run NOISE_THRESHOLD SPEECH_THRESHOLD
      [Act.frame (DbLevel.val (-40)), Act.frame (DbLevel.val (-40)),
        Act.frame (DbLevel.val (-30))] initialState).events ≠ [] := by
  decide

/-- C6 (amended).  Starting from Idle, two mid-band frames followed by one
above-speech-floor frame emit exactly one `speechStart` and leave the
tracker speaking: all three frames cross the noise floor, so the third frame
satisfies both the speech-threshold and the 3-consecutive-noise-frames
conditions. -/
theorem hysteresisVector_emits_start :
    (run NOISE_THRESHOLD SPEECH_THRESHOLD
      [Act.frame (DbLevel.val (-40)), Act.frame (DbLevel.val (-40)),
        Act.frame (DbLevel.val (-30))] initialState).events
      = [VadEvent.speechStart] ∧
    isCurrentlySpeaking (run NOISE_THRESHOLD SPEECH_THRESHOLD
      [Act.frame (DbLevel.val (-40)), Act.frame (DbLevel.val (-40)),
        Act.frame (DbLevel.val (-30))] initialState) = true := by
  decide

/-- C7 (confirmed).  For every sequence of frame updates, timer firings and
teardown actions starting from the initial state, the emitted event log
strictly alternates `speechStart`/`speechEnd` beginning with `speechStart`
(`altExpect false evs = some b` encodes exactly that, with `b` the parity),
so there are never two consecutive events of the same type and never a
`speechEnd` without a preceding unmatched `speechStart`; moreover the parity
coincides with the current `isSpeaking` state. -/
theorem eventsAlternate {α : Type} [LinearOrder α] (noiseT speechT : α)
    (acts : List (Act α)) :
    altExpect false (run noiseT speechT acts initialState).events
      = some (run noiseT speechT acts initialState).isSpeaking :=
  (inv_run noiseT speechT acts initialState inv_initialState).1

/-- C8 (confirmed).  In every state reachable from the initial state by any
sequence of frame updates, timer firings and teardown actions, the silence
timer field is non-null only while `isSpeaking` is true, and at most one
timeout is scheduled for the handler at any time (no overlapping
countdowns). -/
theorem timerOnlyWhileSpeaking {α : Type} [LinearOrder α] (noiseT speechT : α)
    (acts : List (Act α)) :
    ((run noiseT speechT acts initialState).silenceTimer = none ∨
      (run noiseT speechT acts initialState).isSpeaking = true) ∧
    (run noiseT speechT acts initialState).activeTimers.length ≤ 1 := by
  obtain ⟨-, hT, hD⟩ := inv_run noiseT speechT acts initialState inv_initialState
  refine ⟨hD, ?_⟩
  cases hst : (run noiseT speechT acts initialState).silenceTimer with
  | none =>
      have hac := by simpa [TimerOK, hst] using hT
      simp [hac]
  | some h =>
      have hac : (run noiseT speechT acts initialState).activeTimers = [h] ∧
          h < (run noiseT speechT acts initialState).nextTimerId := by
        simpa [TimerOK, hst] using hT
      simp [hac.1]

/-- C10 (confirmed).  A frame above the noise threshold that does not
satisfy both the speech-threshold test and the consecutive-frames test
changes the state only by incrementing `consecutiveNoiseFrames`: `isSpeaking`,
the pending timer, the scheduled-timer queue and the event log are all left
exactly as they were, so such a frame never cancels a running countdown and
never emits an event. -/
theorem midbandFrame_increments_only {α : Type} [LinearOrder α]
    (noiseT speechT : α) (lvl : DbLevel α) (s : HandlerState)
    (hn : dbGtB lvl noiseT = true)
    (hno : dbGtB lvl speechT = false ∨
      s.consecutiveNoiseFrames + 1 < REQUIRED_NOISE_FRAMES) :
    processAudioLevel noiseT speechT lvl s
      = { s with consecutiveNoiseFrames := s.consecutiveNoiseFrames + 1 } := by
  apply processAudioLevel_miss noiseT speechT lvl s hn
  rintro ⟨hs, hc⟩
  rcases hno with h0 | h0
  · rw [hs] at h0; cases h0
  · exact absurd hc (not_le.mpr h0)

/-- C10 (witness): a −40 dB frame (above noise −50, below speech −35)
arriving while speaking with timer 0 pending increments the counter to 1 and
leaves everything else — including the pending timer — unchanged. -/
theorem midbandFrame_increments_only_witness :
    dbGtB (DbLevel.val ((-40) : ℤ)) NOISE_THRESHOLD = true ∧
    dbGtB (DbLevel.val ((-40) : ℤ)) SPEECH_THRESHOLD = false ∧
    processAudioLevel NOISE_THRESHOLD SPEECH_THRESHOLD
      (DbLevel.val ((-40) : ℤ))
      { isSpeaking := true, silenceTimer := some 0, consecutiveNoiseFrames := 0,
        nextTimerId := 1, activeTimers := [0], events := [VadEvent.speechStart],
        currentConnection := true }
      = { isSpeaking := true, silenceTimer := some 0, consecutiveNoiseFrames := 1,
          nextTimerId := 1, activeTimers := [0], events := [VadEvent.speechStart],
          currentConnection := true } :=
  ⟨by decide, by decide,
    midbandFrame_increments_only NOISE_THRESHOLD SPEECH_THRESHOLD
      (DbLevel.val ((-40) : ℤ))
      { isSpeaking := true, silenceTimer := some 0, consecutiveNoiseFrames := 0,
        nextTimerId := 1, activeTimers := [0], events := [VadEvent.speechStart],
        currentConnection := true } (by decide) (Or.inl (by decide))⟩

theorem sumSquares_nonneg (chunk : List ℤ) : 0 ≤ sumSquares chunk := by
  unfold sumSquares
  induction chunk with
  | nil => simp
  | cons x r ih =>
      simp only [List.map_cons, List.sum_cons]
      exact add_nonneg (mul_self_nonneg x) ih

theorem calcLevel_val (chunk : List ℤ) (h1 : chunk.length ≠ 0)
    (h2 : sumSquares chunk ≠ 0) :
    calculateAudioLevel chunk = DbLevel.val (20 * Real.logb 10
      (Real.sqrt ((sumSquares chunk : ℝ) / (chunk.length : ℝ)) / 32768)) := by
  simp [calculateAudioLevel, h1, h2]

/-- C9 (counterexample).  The frames `[1, 1]` and `[2, 0]` have the same
average absolute sample magnitude (1), so the claim requires
`measure [2, 0] ≤ measure [1, 1]` in dB; but the measure is an RMS, and the
mean square of `[2, 0]` (2) exceeds that of `[1, 1]` (1), so
`measure [1, 1] < measure [2, 0]` — monotonicity in average absolute
magnitude fails. -/
theorem measureNotMonotoneInAvgAbs_cex :
    avgAbs [2, 0] ≤ avgAbs [1, 1] ∧
    ¬ dbLe (calculateAudioLevel [2, 0]) (calculateAudioLevel [1, 1]) := by
  constructor
  · norm_num [avgAbs, sumAbs]
  · rw [calcLevel_val [2, 0] (by decide) (by decide),
      calcLevel_val [1, 1] (by decide) (by decide)]
    show ¬ (20 * Real.logb 10
      (Real.sqrt ((sumSquares [2, 0] : ℝ) / (([2, 0] : List ℤ).length : ℝ)) / 32768) ≤
      20 * Real.logb 10
      (Real.sqrt ((sumSquares [1, 1] : ℝ) / (([1, 1] : List ℤ).length : ℝ)) / 32768))
    have e1 : ((sumSquares [2, 0] : ℤ) : ℝ) = 4 := by norm_num [sumSquares]
    have e2 : ((sumSquares [1, 1] : ℤ) : ℝ) = 2 := by norm_num [sumSquares]
    have e3 : (([2, 0] : List ℤ).length : ℝ) = 2 := by norm_num
    have e4 : (([1, 1] : List ℤ).length : ℝ) = 2 := by norm_num
    rw [e1, e2, e3, e4]
    have h4 : ((2:ℝ)/2) = 1 := by norm_num
    have h5 : ((4:ℝ)/2) = 2 := by norm_num
    rw [h4, h5, Real.sqrt_one]
    have hlt : (1:ℝ)/32768 < Real.sqrt 2 / 32768 := by
      have : (1:ℝ) < Real.sqrt 2 := by
        rw [show (1:ℝ) = Real.sqrt 1 from (Real.sqrt_one).symm]
        exact Real.sqrt_lt_sqrt (by norm_num) (by norm_num)
      linarith
    have hmono : Real.logb 10 ((1:ℝ)/32768) < Real.logb 10 (Real.sqrt 2 / 32768) :=
      Real.logb_lt_logb (by norm_num) (by norm_num) hlt
    push_neg
    linarith

/-- C9 (amended).  `measure` is deterministic (it is a pure function of the
frame) and, for non-empty frames, monotone in the *mean square* of the
samples (equivalently in the RMS): `sumSquares b * a.length ≤ sumSquares a *
b.length` is exactly `meanSquare b ≤ meanSquare a` cleared of denominators,
and it implies `measure b ≤ measure a` in the `dbLe` order (with the
all-zero frame's `-Infinity` below every finite level).  Monotonicity in
average absolute magnitude does not hold. -/
theorem measureMonotoneInMeanSquare (a b : List ℤ) (ha : a ≠ []) (hb : b ≠ [])
    (hms : sumSquares b * (a.length : ℤ) ≤ sumSquares a * (b.length : ℤ)) :
    dbLe (calculateAudioLevel b) (calculateAudioLevel a) := by
  have hla : a.length ≠ 0 := fun h => ha (List.length_eq_zero.mp h)
  have hlb : b.length ≠ 0 := fun h => hb (List.length_eq_zero.mp h)
  have hlaR : (0:ℝ) < (a.length : ℝ) := by
    exact_mod_cast Nat.pos_of_ne_zero hla
  have hlbR : (0:ℝ) < (b.length : ℝ) := by
    exact_mod_cast Nat.pos_of_ne_zero hlb
  by_cases hSb : sumSquares b = 0
  · by_cases hSa : sumSquares a = 0
    · simp [calculateAudioLevel, hla, hlb, hSa, hSb, dbLe]
    · simp [calculateAudioLevel, hla, hlb, hSa, hSb, dbLe]
  · have hSbPos : 0 < sumSquares b :=
      lt_of_le_of_ne (sumSquares_nonneg b) (Ne.symm hSb)
    have hSaPos : 0 < sumSquares a := by
      by_contra hcon
      push_neg at hcon
      have h0 : sumSquares a = 0 := le_antisymm hcon (sumSquares_nonneg a)
      rw [h0, zero_mul] at hms
      have hlaZ : (0:ℤ) < (a.length : ℤ) := by
        exact_mod_cast Nat.pos_of_ne_zero hla
      nlinarith
    have hSa : sumSquares a ≠ 0 := ne_of_gt hSaPos
    have hSbR : (0:ℝ) < (sumSquares b : ℝ) := by exact_mod_cast hSbPos
    rw [calcLevel_val a hla hSa, calcLevel_val b hlb hSb]
    show 20 * Real.logb 10
        (Real.sqrt ((sumSquares b : ℝ) / (b.length : ℝ)) / 32768) ≤
      20 * Real.logb 10
        (Real.sqrt ((sumSquares a : ℝ) / (a.length : ℝ)) / 32768)
    have hmsR : (sumSquares b : ℝ) / (b.length : ℝ) ≤
        (sumSquares a : ℝ) / (a.length : ℝ) := by
      rw [div_le_div_iff₀ hlbR hlaR]
      exact_mod_cast hms
    have h1 : Real.sqrt ((sumSquares b : ℝ) / (b.length : ℝ)) ≤
        Real.sqrt ((sumSquares a : ℝ) / (a.length : ℝ)) :=
      Real.sqrt_le_sqrt hmsR
    have hposb : 0 < Real.sqrt ((sumSquares b : ℝ) / (b.length : ℝ)) / 32768 := by
      have hs : 0 < Real.sqrt ((sumSquares b : ℝ) / (b.length : ℝ)) :=
        Real.sqrt_pos.mpr (div_pos hSbR hlbR)
      linarith
    have h2 : Real.sqrt ((sumSquares b : ℝ) / (b.length : ℝ)) / 32768 ≤
        Real.sqrt ((sumSquares a : ℝ) / (a.length : ℝ)) / 32768 := by
      linarith
    have h3 := Real.logb_le_logb_of_le (by norm_num : (1:ℝ) < 10) hposb h2
    linarith

/-- C9 (witness for the amended theorem): `[1, 1]` has mean square 1,
`[2, 0]` has mean square 2, and the measured level of `[1, 1]` is below
that of `[2, 0]` in the `dbLe` order. -/
theorem measureMonotoneInMeanSquare_witness :
    ([2, 0] : List ℤ) ≠ [] ∧ ([1, 1] : List ℤ) ≠ [] ∧
    sumSquares [1, 1] * ((([2, 0] : List ℤ).length : ℤ))
      ≤ sumSquares [2, 0] * ((([1, 1] : List ℤ).length : ℤ)) ∧
    dbLe (calculateAudioLevel [1, 1]) (calculateAudioLevel [2, 0]) :=
  ⟨by decide, by decide, by decide,
    measureMonotoneInMeanSquare [2, 0] [1, 1] (by decide) (by decide)
      (by decide)⟩
